import Mathlib

/-!
Verification development for the PyCrafter repository (`pycrafter.py`).

The program is a configuration-to-command-line mapper around PyInstaller,
with a Tk GUI.  This file embeds, at the value level:

* the backend `Crafter` class: its constructor (`Crafter.init`), the
  command construction (`Crafter.build_command`, from `_build_command`),
  input validation (`Crafter.validate_inputs`, from `_validate_inputs`)
  and the build driver (`Crafter.build`);
* the GUI translation inside `PyCrafter.build_exe`
  (`PyCrafter.build_exe_command`) together with its comma-separated field
  parser (`parse_comma_separated`) and the output path reported by the
  background build thread on success (`PyCrafter.run_build_output_path`).

Conventions of the embedding:

* Python `str` values are Lean `String`s; `pathlib` path operations are
  modelled over POSIX-style strings with separator `/`.
* Filesystem queries (`Path.is_file`, `Path.exists`, `os.access`),
  `Path.resolve`, the `tempfile.mkdtemp` results, and the outcome of the
  `PyInstaller.__main__.run` call depend on the machine, not the program,
  so they are supplied through explicit environment records (`InitEnv`,
  `BuildEnv`).
* Python exceptions are values of `PyExn`; fallible code returns
  `Except PyExn _`.
-/

/-- Python whitespace as recognised by `str.strip()` (ASCII range). -/
def pyIsSpace (c : Char) : Bool :=
  c = ' ' || c = '\t' || c = '\n' || c = '\r' || c = '\x0b' || c = '\x0c'

/-- Characters of Python `s.strip()`: whitespace dropped from both ends. -/
def stripChars (l : List Char) : List Char :=
  ((l.dropWhile pyIsSpace).reverse.dropWhile pyIsSpace).reverse

/-- Python `s.strip()` (no-argument form). -/
def pyStrip (s : String) : String :=
  ⟨stripChars s.data⟩

/-- Python `text.split(sep)` for a one-character separator, on characters.
`"".split(",") == [""]`, and each separator delimits a (possibly empty)
piece. -/
def splitOnChar (sep : Char) : List Char → List (List Char)
  | [] => [[]]
  | c :: rest =>
    let r := splitOnChar sep rest
    if c = sep then [] :: r
    else
      match r with
      | [] => [[c]]
      | h :: t => (c :: h) :: t

/-- Python `text.split(",")`, as `String`s. -/
def pySplitComma (s : String) : List String :=
  (splitOnChar ',' s.data).map (fun cs => ⟨cs⟩)

/-- Python `s.lower()` (ASCII case folding suffices for the checks made). -/
def pyLower (s : String) : String :=
  ⟨s.data.map Char.toLower⟩

/-- `pathlib.Path(p).name`: the final path component (trailing separators
are dropped by `Path` normalisation). -/
def pathName (p : String) : String :=
  let rev := p.data.reverse.dropWhile (fun c => c = '/')
  ⟨(rev.takeWhile (fun c => c != '/')).reverse⟩

/-- `pathlib.Path(p).suffix`: the extension of the final component.  Using
`i = name.rfind('.')`, the suffix is `name[i:]` when `0 < i < len(name)-1`
and empty otherwise (so dotless names, dot-initial names such as `.py`,
and names ending in a dot have no suffix). -/
def pySuffix (p : String) : String :=
  let name := (pathName p).data
  let after := name.reverse.takeWhile (fun c => c != '.')
  if after.length = name.length then ⟨[]⟩
  else
    let i := name.length - 1 - after.length
    if 0 < i ∧ i < name.length - 1 then ⟨name.drop i⟩ else ⟨[]⟩

/-- `pathlib.Path(p).stem`: the final component without its suffix, with
the same `rfind`-based case split as `pySuffix`. -/
def pyStem (p : String) : String :=
  let name := (pathName p).data
  let after := name.reverse.takeWhile (fun c => c != '.')
  if after.length = name.length then ⟨name⟩
  else
    let i := name.length - 1 - after.length
    if 0 < i ∧ i < name.length - 1 then ⟨name.take i⟩ else ⟨name⟩

/-- `pathlib.Path(p).parent`: the path without its final component; `.`
for single-component relative paths and `/` when only the root remains. -/
def pyParent (p : String) : String :=
  let trimmed := p.data.reverse.dropWhile (fun c => c = '/')
  let afterName := trimmed.dropWhile (fun c => c != '/')
  if afterName.isEmpty then "."
  else
    let parentRev := afterName.dropWhile (fun c => c = '/')
    if parentRev.isEmpty then "/" else ⟨parentRev.reverse⟩

/-- `str(Path(dir) / file)` for a bare file name. -/
def pyJoin (dir file : String) : String :=
  if dir.data.getLast? = some '/' then dir ++ file else dir ++ "/" ++ file

/-- A Python value passed where a string is expected: a string, `None`, or
some other (truthy) non-string object.  `Crafter.__init__` checks
`not script or not isinstance(script, str)`. -/
inductive PyVal where
  | vstr (s : String)
  | vnone
  | vother
deriving DecidableEq

/-- The Python exceptions this embedding distinguishes.  `crafterError`
is the repository's `CrafterError`; `attributeError` stands for
`AttributeError` (raised on reading a never-assigned attribute);
`otherError` is any other exception, carrying its message. -/
inductive PyExn where
  | crafterError (msg : String)
  | attributeError
  | otherError (msg : String)
deriving DecidableEq

/-- Environment seen by `Crafter.__init__`: whether the `PyInstaller`
module could be imported, which paths are existing regular files, and
what `Path(p).resolve()` returns. -/
structure InitEnv where
  pyinstaller_available : Bool
  is_file : String → Bool
  resolve : String → String

/-- The state of a constructed `Crafter` (its attributes after
`__init__`; the progress callback carries no data relevant to any claim
and is omitted). -/
structure Crafter where
  script : String
  output : String
  icon : Option String
  name : String
  no_console : Bool
  one_file : Bool
  require_admin : Bool
  clean_build : Bool
  force_replace : Bool
  optimize : Bool
  hidden_imports : List String
  excluded_modules : List String
  data_files : List String
  binary_files : List String
  extra_paths : List String
deriving DecidableEq

/-- The list-normalising comprehension used for the five list parameters:
`[item.strip() for item in (xs or []) if item and item.strip()]`. -/
def pyCleanList (xs : Option (List String)) : List String :=
  ((xs.getD []).filter (fun item => item != "" && pyStrip item != "")).map pyStrip

/-- The attribute assignments of `Crafter.__init__` once validation has
passed, for a script argument `s` (lines 125-142 of `pycrafter.py`). -/
def Crafter.initRecord (env : InitEnv) (s : String)
    (output icon name : Option String)
    (no_console one_file require_admin clean_build force_replace optimize : Bool)
    (hidden_imports excluded_modules data_files binary_files extra_paths :
      Option (List String)) : Crafter :=
  let script_r := env.resolve s
  { script := script_r
    output := match output with
      | some o => if o = "" then pyParent script_r else env.resolve o
      | none => pyParent script_r
    icon := match icon with
      | some i => if i = "" then none else some (env.resolve i)
      | none => none
    name := match name with
      | some n => if n = "" then pyStem script_r else n
      | none => pyStem script_r
    no_console := no_console
    one_file := one_file
    require_admin := require_admin
    clean_build := clean_build
    force_replace := force_replace
    optimize := optimize
    hidden_imports := pyCleanList hidden_imports
    excluded_modules := pyCleanList excluded_modules
    data_files := pyCleanList data_files
    binary_files := pyCleanList binary_files
    extra_paths := pyCleanList extra_paths }

/-- `Crafter.__init__` (lines 94-145): `PYINSTALLER_AVAILABLE` check, the
non-empty-string check on `script`, the `.py`-file check
(`script_path.is_file()` and `script_path.suffix.lower() != ".py"`), then
the attribute assignments.  Note `output`, `icon` and `name` use Python
truthiness, so `None` and `""` behave alike. -/
def Crafter.init (env : InitEnv) (script : PyVal)
    (output icon name : Option String)
    (no_console one_file require_admin clean_build force_replace optimize : Bool)
    (hidden_imports excluded_modules data_files binary_files extra_paths :
      Option (List String)) : Except PyExn Crafter :=
  if !env.pyinstaller_available then
    .error (.crafterError ("PyInstaller is not installed. Install it using: pip install pyinstaller"))
  else
    match script with
    | .vstr s =>
      if s = "" then
        .error (.crafterError ("Script path must be a non-empty string"))
      else if !env.is_file s || pyLower (pySuffix s) != ".py" then
        .error (.crafterError ("The provided script path must point to a valid .py file."))
      else
        .ok (Crafter.initRecord env s output icon name no_console one_file require_admin
          clean_build force_replace optimize hidden_imports excluded_modules data_files
          binary_files extra_paths)
    | _ => .error (.crafterError ("Script path must be a non-empty string"))

/-- `Crafter._build_command` (lines 244-293), with the two `mkdtemp`
temporary directories passed in from the environment.  Each `for` loop
`for x in xs: cmd.extend([flag, x])` is a `flatMap` of flag-value
pairs. -/
def Crafter.build_command (c : Crafter) (work_dir spec_dir : String) : List String :=
  let cmd := [c.script, "--name", c.name, "--distpath", c.output,
              "--workpath", work_dir, "--specpath", spec_dir]
  let cmd := match c.icon with
    | some i => cmd ++ ["--icon", i]
    | none => cmd
  let cmd := if c.one_file then cmd ++ ["--onefile"] else cmd
  let cmd := if c.no_console then cmd ++ ["--noconsole"] else cmd
  let cmd := if c.require_admin then cmd ++ ["--uac-admin"] else cmd
  let cmd := if c.optimize then cmd ++ ["--optimize", "2"] else cmd
  let cmd := cmd ++ c.hidden_imports.flatMap (fun item => ["--hidden-import", item])
  let cmd := cmd ++ c.excluded_modules.flatMap (fun item => ["--exclude-module", item])
  let cmd := cmd ++ c.data_files.flatMap (fun data => ["--add-data", data])
  let cmd := cmd ++ c.binary_files.flatMap (fun binary => ["--add-binary", binary])
  let cmd := cmd ++ c.extra_paths.flatMap (fun path => ["--paths", path])
  cmd

/-- Environment seen by `Crafter.build`: which paths exist, which
directories are writable, the two `mkdtemp` results, whether
`PyInstaller.__main__.run` raised (and with what message), and whether
`<output>/<name>.exe` exists after the run. -/
structure BuildEnv where
  path_exists : String → Bool
  writable : String → Bool
  work_dir : String
  spec_dir : String
  run_error : Option String
  exe_exists_after : Bool

/-- The characters rejected in executable names by `_validate_inputs`. -/
def invalidNameChars : List Char := ['<', '>', ':', '"', '/', '\\', '|', '?', '*']

/-- `data_file.split(';')[0]`: the part before the first semicolon. -/
def semiSrc (f : String) : String :=
  ⟨f.data.takeWhile (fun c => c != ';')⟩

/-- `Crafter._validate_inputs` (lines 215-242): script existence, icon
existence when an icon is set, write access to the output directory's
parent, invalid characters in the name, and the existence of the source
part of every `src;dest` data/binary entry (the loops raise at the first
offender, modelled by `find?`). -/
def Crafter.validate_inputs (c : Crafter) (env : BuildEnv) : Except PyExn Unit :=
  if !env.path_exists c.script then
    .error (.crafterError ("Script file not found: " ++ c.script))
  else if (match c.icon with | some i => !env.path_exists i | none => false) then
    .error (.crafterError ("Icon file not found"))
  else if !env.writable (pyParent c.output) then
    .error (.crafterError ("No write permission for output directory: " ++ c.output))
  else if invalidNameChars.any (fun ch => c.name.data.contains ch) then
    .error (.crafterError ("Executable name contains invalid characters"))
  else
    match c.data_files.find? (fun f => f.data.contains ';' && !env.path_exists (semiSrc f)) with
    | some f => .error (.crafterError ("Data file not found: " ++ semiSrc f))
    | none =>
      match c.binary_files.find? (fun f => f.data.contains ';' && !env.path_exists (semiSrc f)) with
      | some f => .error (.crafterError ("Binary file not found: " ++ semiSrc f))
      | none => .ok ()

/-- The `try` body of `Crafter.build` (lines 165-201): validation,
temp-file cleanup when `clean_build` (filesystem effects only; its own
errors are swallowed inside `_clean_temp_files`), `output.mkdir` and the
`force_replace` unlink (filesystem effects only), command construction,
the `PyInstaller.__main__.run(cmd)` call, and the final existence check
on `<output>/<name>.exe`. -/
def Crafter.build_body (c : Crafter) (env : BuildEnv) : Except PyExn String :=
  match Crafter.validate_inputs c env with
  | .error e => .error e
  | .ok _ =>
    let _cmd := Crafter.build_command c env.work_dir env.spec_dir
    match env.run_error with
    | some msg => .error (.otherError msg)
    | none =>
      if env.exe_exists_after then
        .ok (pyJoin c.output (c.name ++ ".exe"))
      else
        .error (.crafterError ("Build completed but executable file was not found."))

/-- `Crafter.build` (lines 155-207): the `try` body wrapped in
`except Exception as e`.  The handler formats `"Build failed: ..."`, logs
it, and then evaluates `self.debug` in
`self.logger.error(error_msg, exc_info=self.debug)`; `Crafter.__init__`
never assigns a `debug` attribute, so the handler itself raises
`AttributeError` and the `raise CrafterError(error_msg) from e` line is
unreachable. -/
def Crafter.build (c : Crafter) (env : BuildEnv) : Except PyExn String :=
  match Crafter.build_body c env with
  | .ok result => .ok result
  | .error _e => .error .attributeError

/-- The state of the GUI form: the nine `StringVar` fields and six
`BooleanVar` checkboxes read by `PyCrafter.build_exe`. -/
structure GuiForm where
  script_var : String
  output_var : String
  icon_var : String
  name_var : String
  hidden_imports_var : String
  excluded_modules_var : String
  data_files_var : String
  binary_files_var : String
  extra_paths_var : String
  no_console_var : Bool
  one_file_var : Bool
  admin_var : Bool
  clean_build_var : Bool
  force_replace_var : Bool
  optimize_var : Bool
deriving DecidableEq

/-- The comprehension inside `parse_comma_separated`:
`[item.strip() for item in text.split(",") if item.strip()]`. -/
def commaEntries (text : String) : List String :=
  ((pySplitComma text).filter (fun item => pyStrip item != "")).map pyStrip

/-- `PyCrafter.parse_comma_separated` (lines 723-729): `None` for blank
text, otherwise the stripped non-blank comma-separated pieces. -/
def parse_comma_separated (text : String) : Option (List String) :=
  if pyStrip text = "" then none else some (commaEntries text)

/-- `if value: cmd.extend([flag, value])` for an optional string. -/
def extend_opt (cmd : List String) (value : Option String) (flag : String) : List String :=
  match value with
  | some v => cmd ++ [flag, v]
  | none => cmd

/-- `if values:` followed by `for x in values: cmd.extend(args(x))` for an
optional list (both `None` and `[]` are falsy and contribute nothing). -/
def extend_each (cmd : List String) (values : Option (List String))
    (args : String → List String) : List String :=
  match values with
  | some l => if l.isEmpty then cmd else cmd ++ l.flatMap args
  | none => cmd

/-- The command construction inside `PyCrafter.build_exe` (lines
747-806): field reads with Python truthiness, comma-separated parsing,
then the incremental `cmd` construction ending with the script path. -/
def PyCrafter.build_exe_command (g : GuiForm) : List String :=
  let script := g.script_var
  let output := if g.output_var = "" then none else some g.output_var
  let icon := if g.icon_var = "" then none else some g.icon_var
  let name := if g.name_var = "" then none else some g.name_var
  let hidden_imports := parse_comma_separated g.hidden_imports_var
  let excluded_modules := parse_comma_separated g.excluded_modules_var
  let data_files := parse_comma_separated g.data_files_var
  let binary_files := parse_comma_separated g.binary_files_var
  let extra_paths := parse_comma_separated g.extra_paths_var
  let cmd := ["pyinstaller"]
  let cmd := if g.one_file_var then cmd ++ ["--onefile"] else cmd
  let cmd := if g.no_console_var then cmd ++ ["--noconsole"] else cmd
  let cmd := if g.admin_var then cmd ++ ["--uac-admin"] else cmd
  let cmd := if g.clean_build_var then cmd ++ ["--clean"] else cmd
  let cmd := if g.force_replace_var then cmd ++ ["--noconfirm"] else cmd
  let cmd := if g.optimize_var then cmd ++ ["--optimize=2"] else cmd
  let cmd := extend_opt cmd output ("--distpath")
  let cmd := extend_opt cmd icon ("--icon")
  let cmd := extend_opt cmd name ("--name")
  let cmd := extend_each cmd hidden_imports (fun m => ["--hidden-import", m])
  let cmd := extend_each cmd excluded_modules (fun m => ["--exclude-module", m])
  let cmd := extend_each cmd data_files (fun f => ["--add-data", f ++ ";."])
  let cmd := extend_each cmd binary_files (fun f => ["--add-binary", f ++ ";."])
  let cmd := extend_each cmd extra_paths (fun p => ["--paths", p])
  cmd ++ [script]

/-- The `output_path` reported by the success dialog in `run_build`
(line 815): `Path(output) if output else Path(script).parent`, where
`output` is the output field under Python truthiness. -/
def PyCrafter.run_build_output_path (g : GuiForm) : String :=
  let output := if g.output_var = "" then none else some g.output_var
  match output with
  | some o => o
  | none => pyParent g.script_var

/-! ### Concrete sample configurations used by closed theorems -/

/-- A sample constructor environment: PyInstaller importable, every path
an existing file, resolution prefixing an absolute root. -/
def envA : InitEnv :=
  { pyinstaller_available := true
    is_file := fun _ => true
    resolve := fun s => "/abs/" ++ s }

/-- A sample backend state for a plain one-file build. -/
def crafterA : Crafter :=
  { script := "/proj/main.py"
    output := "/proj/out"
    icon := none
    name := "main"
    no_console := false
    one_file := true
    require_admin := false
    clean_build := false
    force_replace := false
    optimize := false
    hidden_imports := []
    excluded_modules := []
    data_files := []
    binary_files := []
    extra_paths := [] }

/-- A build environment in which everything succeeds and the executable
appears in the output directory. -/
def buildEnvOk : BuildEnv :=
  { path_exists := fun _ => true
    writable := fun _ => true
    work_dir := "/tmp/work"
    spec_dir := "/tmp/spec"
    run_error := none
    exe_exists_after := true }

/-- Like `buildEnvOk`, but no executable exists after the run. -/
def buildEnvNoExe : BuildEnv :=
  { buildEnvOk with exe_exists_after := false }

/-- Like `buildEnvOk`, but the script file does not exist. -/
def buildEnvNoScript : BuildEnv :=
  { buildEnvOk with path_exists := fun p => !(p == "/proj/main.py") }

/-- A backend state with the optimize option on (no icon). -/
def crafterOpt : Crafter :=
  { crafterA with
    script := "app.py"
    output := "out"
    name := "app"
    one_file := false
    optimize := true }

/-- The GUI form describing the same configuration as `crafterOpt`. -/
def guiOpt : GuiForm :=
  { script_var := "app.py"
    output_var := "out"
    icon_var := ""
    name_var := "app"
    hidden_imports_var := ""
    excluded_modules_var := ""
    data_files_var := ""
    binary_files_var := ""
    extra_paths_var := ""
    no_console_var := false
    one_file_var := false
    admin_var := false
    clean_build_var := false
    force_replace_var := false
    optimize_var := true }

/-- A backend state with icon, name, output and one hidden import set. -/
def crafterW : Crafter :=
  { script := "app.py"
    output := "out"
    icon := some "app.ico"
    name := "app"
    no_console := true
    one_file := true
    require_admin := false
    clean_build := false
    force_replace := false
    optimize := false
    hidden_imports := ["numpy"]
    excluded_modules := []
    data_files := []
    binary_files := []
    extra_paths := [] }

/-- The GUI form describing the same configuration as `crafterW`. -/
def guiW : GuiForm :=
  { script_var := "app.py"
    output_var := "out"
    icon_var := "app.ico"
    name_var := "app"
    hidden_imports_var := "numpy"
    excluded_modules_var := ""
    data_files_var := ""
    binary_files_var := ""
    extra_paths_var := ""
    no_console_var := true
    one_file_var := true
    admin_var := false
    clean_build_var := false
    force_replace_var := false
    optimize_var := false }

/-- `guiW` with only the optimize checkbox toggled on. -/
def guiOptOn : GuiForm :=
  { guiW with optimize_var := true }

/-- `guiW` with the output directory field left empty. -/
def guiNoOut : GuiForm :=
  { guiW with output_var := "" }

/-- `crafterA` with only the clean-build and force-replace options on. -/
def crafterCleanOn : Crafter :=
  { crafterA with
    clean_build := true
    force_replace := true }

/-! ### Helper lemmas on the string primitives -/

/-- Unfolding `stripChars` through Mathlib's `rdropWhile`. -/
lemma stripChars_def (l : List Char) :
    stripChars l = List.rdropWhile pyIsSpace (l.dropWhile pyIsSpace) := rfl

/-- Two `String.mk` values are equal iff their character lists are. -/
lemma string_mk_eq_iff (a b : List Char) : (⟨a⟩ : String) = ⟨b⟩ ↔ a = b := by
  constructor
  · intro h; injection h
  · intro h; rw [h]

/-- A list decomposes as its right-stripped part followed by a tail of
elements satisfying the predicate. -/
lemma exists_append_rdropWhile (p : Char → Bool) (z : List Char) :
    ∃ rest, z = List.rdropWhile p z ++ rest ∧ ∀ c ∈ rest, p c := by
  refine ⟨(z.reverse.takeWhile p).reverse, ?_, ?_⟩
  · have hsplit : List.rdropWhile p z ++ (z.reverse.takeWhile p).reverse
        = (List.takeWhile p z.reverse ++ List.dropWhile p z.reverse).reverse := by
      rw [List.reverse_append]
      rfl
    rw [hsplit, List.takeWhile_append_dropWhile, List.reverse_reverse]
  · intro c hc
    rw [List.mem_reverse] at hc
    exact List.mem_takeWhile_imp hc

/-- If `dropWhile` is the identity on a nonempty list, its head fails the
predicate. -/
lemma head_fails_of_dropWhile_eq_self (p : Char → Bool) (c : Char) (t : List Char)
    (h : List.dropWhile p (c :: t) = c :: t) : p c = false := by
  rw [List.dropWhile_eq_self_iff] at h
  simpa using h (by simp)

/-- Right-stripping preserves the property of having no leading
whitespace. -/
lemma dropWhile_rdropWhile_eq_self (p : Char → Bool) (z : List Char)
    (h : List.dropWhile p z = z) :
    List.dropWhile p (List.rdropWhile p z) = List.rdropWhile p z := by
  obtain ⟨rest, hz, -⟩ := exists_append_rdropWhile p z
  cases hrw : List.rdropWhile p z with
  | nil => simp
  | cons c t =>
    have hz' : z = c :: (t ++ rest) := by rw [hz, hrw]; simp
    have hc : p c = false := by
      apply head_fails_of_dropWhile_eq_self p c (t ++ rest)
      rw [← hz']
      exact h
    simp [List.dropWhile_cons, hc]

/-- Stripping is idempotent at the character-list level. -/
lemma stripChars_idem (l : List Char) : stripChars (stripChars l) = stripChars l := by
  rw [stripChars_def, stripChars_def]
  have hu : List.dropWhile pyIsSpace (List.dropWhile pyIsSpace l)
      = List.dropWhile pyIsSpace l := List.dropWhile_idempotent _ _
  rw [dropWhile_rdropWhile_eq_self pyIsSpace (List.dropWhile pyIsSpace l) hu]
  exact List.rdropWhile_idempotent _ _

/-- Python `strip` is idempotent. -/
lemma pyStrip_idem (s : String) : pyStrip (pyStrip s) = pyStrip s := by
  show (⟨stripChars (stripChars s.data)⟩ : String) = ⟨stripChars s.data⟩
  rw [stripChars_idem]

/-- A character list strips to nothing iff it is all whitespace. -/
lemma stripChars_eq_nil_iff (l : List Char) :
    stripChars l = [] ↔ ∀ c ∈ l, pyIsSpace c := by
  rw [stripChars_def, List.rdropWhile_eq_nil_iff]
  constructor
  · intro h c hc
    have hsplit : c ∈ List.takeWhile pyIsSpace l ++ List.dropWhile pyIsSpace l := by
      rw [List.takeWhile_append_dropWhile]
      exact hc
    rcases List.mem_append.mp hsplit with h1 | h2
    · exact List.mem_takeWhile_imp h1
    · exact h c h2
  · intro h c hc
    exact h c ((List.dropWhile_suffix pyIsSpace).sublist.mem hc)

/-- A string strips to the empty string iff it is all whitespace. -/
lemma pyStrip_eq_empty_iff (s : String) :
    pyStrip s = "" ↔ ∀ c ∈ s.data, pyIsSpace c := by
  show (⟨stripChars s.data⟩ : String) = ⟨[]⟩ ↔ _
  rw [string_mk_eq_iff, stripChars_eq_nil_iff]

/-- Splitting never invents characters: every piece draws from the input. -/
lemma splitOnChar_subset (sep : Char) :
    ∀ l : List Char, ∀ piece ∈ splitOnChar sep l, ∀ c ∈ piece, c ∈ l := by
  intro l
  induction l with
  | nil =>
    intro piece hp c hc
    simp only [splitOnChar, List.mem_singleton] at hp
    subst hp
    simp at hc
  | cons x rest ih =>
    intro piece hp c hc
    simp only [splitOnChar] at hp
    by_cases hx : x = sep
    · rw [if_pos hx] at hp
      rcases List.mem_cons.mp hp with h1 | h2
      · subst h1; simp at hc
      · exact List.mem_cons_of_mem x (ih piece h2 c hc)
    · rw [if_neg hx] at hp
      cases hsp : splitOnChar sep rest with
      | nil =>
        rw [hsp] at hp
        simp only [List.mem_singleton] at hp
        subst hp
        simp only [List.mem_singleton] at hc
        subst hc
        exact List.mem_cons_self _ _
      | cons hpiece tpieces =>
        rw [hsp] at hp
        rcases List.mem_cons.mp hp with h1 | h2
        · subst h1
          rcases List.mem_cons.mp hc with h3 | h4
          · subst h3; exact List.mem_cons_self _ _
          · refine List.mem_cons_of_mem x (ih hpiece ?_ c h4)
            rw [hsp]
            exact List.mem_cons_self hpiece tpieces
        · refine List.mem_cons_of_mem x (ih piece ?_ c hc)
          rw [hsp]
          exact List.mem_cons_of_mem hpiece h2

/-- A blank field has no non-blank comma-separated entries. -/
lemma commaEntries_eq_nil_of_strip (t : String) (h : pyStrip t = "") :
    commaEntries t = [] := by
  have hall : ∀ c ∈ t.data, pyIsSpace c := (pyStrip_eq_empty_iff t).mp h
  unfold commaEntries pySplitComma
  rw [List.map_eq_nil_iff, List.filter_eq_nil_iff]
  intro item hitem
  obtain ⟨piece, hpiece, rfl⟩ := List.mem_map.mp hitem
  have hps : ∀ c ∈ piece, pyIsSpace c :=
    fun c hc => hall c (splitOnChar_subset ',' t.data piece hpiece c hc)
  have : pyStrip ⟨piece⟩ = "" := by
    show (⟨stripChars piece⟩ : String) = ⟨[]⟩
    rw [string_mk_eq_iff, stripChars_eq_nil_iff]
    exact hps
  simp [this]

/-- `if b: cmd += xs` appends an `if`-guarded segment. -/
lemma ite_extend (b : Bool) (cmd xs : List String) :
    (if b then cmd ++ xs else cmd) = cmd ++ (if b then xs else []) := by
  cases b <;> simp

/-- `extend_opt` over a truthiness-tested field appends an
emptiness-guarded flag-value pair. -/
lemma extend_opt_eq (cmd : List String) (s flag : String) :
    extend_opt cmd (if s = "" then none else some s) flag
      = cmd ++ (if s = "" then [] else [flag, s]) := by
  by_cases h : s = "" <;> simp [extend_opt, h]

/-- `extend_each` over a parsed comma-separated field appends one
flag-value group per non-blank entry. -/
lemma extend_each_parse (cmd : List String) (t : String) (args : String → List String) :
    extend_each cmd (parse_comma_separated t) args
      = cmd ++ (commaEntries t).flatMap args := by
  unfold extend_each parse_comma_separated
  by_cases h : pyStrip t = ""
  · rw [if_pos h]
    simp [commaEntries_eq_nil_of_strip t h]
  · rw [if_neg h]
    by_cases h2 : (commaEntries t).isEmpty
    · rw [List.isEmpty_iff] at h2
      simp [h2]
    · simp only [h2, if_neg]
      simp at h2
      simp [h2]

/-- The backend command as one explicit concatenation: fixed prefix, the
optional and boolean segments, then the five flag-value pair groups. -/
lemma build_command_eq (c : Crafter) (w sp : String) :
    Crafter.build_command c w sp =
      [c.script, "--name", c.name, "--distpath", c.output,
        "--workpath", w, "--specpath", sp]
        ++ (match c.icon with | some i => ["--icon", i] | none => [])
        ++ (if c.one_file then ["--onefile"] else [])
        ++ (if c.no_console then ["--noconsole"] else [])
        ++ (if c.require_admin then ["--uac-admin"] else [])
        ++ (if c.optimize then ["--optimize", "2"] else [])
        ++ c.hidden_imports.flatMap (fun item => ["--hidden-import", item])
        ++ c.excluded_modules.flatMap (fun item => ["--exclude-module", item])
        ++ c.data_files.flatMap (fun data => ["--add-data", data])
        ++ c.binary_files.flatMap (fun binary => ["--add-binary", binary])
        ++ c.extra_paths.flatMap (fun path => ["--paths", path]) := by
  obtain ⟨s, o, ic, n, nc, of, ra, cb, fr, op, hi, ex, da, bi, ep⟩ := c
  unfold Crafter.build_command
  cases ic <;> cases of <;> cases nc <;> cases ra <;> cases op <;> simp

/-- The GUI command as one explicit concatenation: the program name, the
six checkbox flags, the three emptiness-guarded field pairs, one
flag-value group per non-blank comma-separated entry, and the script. -/
lemma build_exe_command_eq (g : GuiForm) :
    PyCrafter.build_exe_command g =
      ["pyinstaller"]
        ++ (if g.one_file_var then ["--onefile"] else [])
        ++ (if g.no_console_var then ["--noconsole"] else [])
        ++ (if g.admin_var then ["--uac-admin"] else [])
        ++ (if g.clean_build_var then ["--clean"] else [])
        ++ (if g.force_replace_var then ["--noconfirm"] else [])
        ++ (if g.optimize_var then ["--optimize=2"] else [])
        ++ (if g.output_var = "" then [] else ["--distpath", g.output_var])
        ++ (if g.icon_var = "" then [] else ["--icon", g.icon_var])
        ++ (if g.name_var = "" then [] else ["--name", g.name_var])
        ++ (commaEntries g.hidden_imports_var).flatMap (fun m => ["--hidden-import", m])
        ++ (commaEntries g.excluded_modules_var).flatMap (fun m => ["--exclude-module", m])
        ++ (commaEntries g.data_files_var).flatMap (fun f => ["--add-data", f ++ ";."])
        ++ (commaEntries g.binary_files_var).flatMap (fun f => ["--add-binary", f ++ ";."])
        ++ (commaEntries g.extra_paths_var).flatMap (fun p => ["--paths", p])
        ++ [g.script_var] := by
  unfold PyCrafter.build_exe_command
  dsimp only
  rw [ite_extend, ite_extend, ite_extend, ite_extend, ite_extend, ite_extend,
    extend_opt_eq, extend_opt_eq, extend_opt_eq,
    extend_each_parse, extend_each_parse, extend_each_parse, extend_each_parse,
    extend_each_parse]

/-- Inversion for `Crafter.init`: construction succeeds exactly when
PyInstaller is importable and the script argument is a non-empty string
naming an existing file with (case-insensitive) extension `.py`, and the
resulting state is the attribute record. -/
lemma init_ok_iff (env : InitEnv) (script : PyVal) (output icon name : Option String)
    (nc of ra cb fr op : Bool) (hi ex da bi ep : Option (List String)) (c : Crafter) :
    Crafter.init env script output icon name nc of ra cb fr op hi ex da bi ep = .ok c ↔
      env.pyinstaller_available = true ∧
      ∃ s, script = PyVal.vstr s ∧ s ≠ "" ∧ env.is_file s = true ∧
        pyLower (pySuffix s) = ".py" ∧
        c = Crafter.initRecord env s output icon name nc of ra cb fr op hi ex da bi ep := by
  unfold Crafter.init
  by_cases ha : env.pyinstaller_available = true
  · cases script with
    | vstr s =>
      by_cases hs : s = ""
      · simp [ha, hs]
      · cases hfile : env.is_file s with
        | true =>
          by_cases hlow : pyLower (pySuffix s) = ".py"
          · simp [ha, hs, hfile, hlow]
            exact eq_comm
          · simp [ha, hs, hfile, hlow, bne_iff_ne]
        | false => simp [ha, hs, hfile]
    | vnone => simp [ha]
    | vother => simp [ha]
  · simp only [Bool.not_eq_true] at ha
    simp [ha]

/-- `Crafter.init` either succeeds or raises a `CrafterError`; no other
exception can escape the constructor. -/
lemma init_ok_or_crafterError (env : InitEnv) (script : PyVal)
    (output icon name : Option String) (nc of ra cb fr op : Bool)
    (hi ex da bi ep : Option (List String)) :
    (∃ c, Crafter.init env script output icon name nc of ra cb fr op hi ex da bi ep = .ok c) ∨
    (∃ msg, Crafter.init env script output icon name nc of ra cb fr op hi ex da bi ep
      = .error (.crafterError msg)) := by
  unfold Crafter.init
  by_cases ha : env.pyinstaller_available = true
  · cases script with
    | vstr s =>
      by_cases hs : s = ""
      · right; simp [ha, hs]
      · by_cases hv : (!env.is_file s || pyLower (pySuffix s) != ".py") = true
        · right; simp [ha, hs, hv]
        · left; simp [ha, hs, hv]
    | vnone => right; simp [ha]
    | vother => right; simp [ha]
  · simp only [Bool.not_eq_true] at ha
    right
    simp [ha]

/-- Every element surviving the list-normalising comprehension is a
non-empty string fixed by `strip`. -/
lemma pyCleanList_clean (xs : Option (List String)) :
    ∀ e ∈ pyCleanList xs, e ≠ "" ∧ pyStrip e = e := by
  intro e he
  unfold pyCleanList at he
  obtain ⟨x, hx, rfl⟩ := List.mem_map.mp he
  have hcond := (List.mem_filter.mp hx).2
  simp only [Bool.and_eq_true, bne_iff_ne, ne_eq] at hcond
  exact ⟨hcond.2, pyStrip_idem x⟩

/-- The comprehension yields `[]` when given `None` or a list of blank
strings. -/
lemma pyCleanList_eq_nil (xs : Option (List String))
    (h : ∀ x ∈ xs.getD [], pyStrip x = "") : pyCleanList xs = [] := by
  unfold pyCleanList
  rw [List.map_eq_nil_iff, List.filter_eq_nil_iff]
  intro x hx
  simp only [Bool.and_eq_true, bne_iff_ne, ne_eq, not_and, not_not]
  intro _
  exact h x hx

/-! ### Claim theorems -/

/-- C1: for every constructed `Crafter`, `_build_command` returns a
command that begins with the script path followed by the
`--name`, `--distpath`, `--workpath` and `--specpath` pairs, and equals
exactly that prefix followed by the `--icon` pair iff an icon was given,
`--onefile` iff `one_file`, `--noconsole` iff `no_console`, `--uac-admin`
iff `require_admin`, `--optimize 2` iff `optimize`, and one flag-value
pair per element of each of the five lists, in list order, with no other
arguments. -/
theorem c1_build_command_structure (c : Crafter) (w sp : String) :
    (Crafter.build_command c w sp).take 9
        = [c.script, "--name", c.name, "--distpath", c.output,
            "--workpath", w, "--specpath", sp] ∧
    Crafter.build_command c w sp =
      [c.script, "--name", c.name, "--distpath", c.output,
        "--workpath", w, "--specpath", sp]
        ++ (match c.icon with | some i => ["--icon", i] | none => [])
        ++ (if c.one_file then ["--onefile"] else [])
        ++ (if c.no_console then ["--noconsole"] else [])
        ++ (if c.require_admin then ["--uac-admin"] else [])
        ++ (if c.optimize then ["--optimize", "2"] else [])
        ++ c.hidden_imports.flatMap (fun item => ["--hidden-import", item])
        ++ c.excluded_modules.flatMap (fun item => ["--exclude-module", item])
        ++ c.data_files.flatMap (fun data => ["--add-data", data])
        ++ c.binary_files.flatMap (fun binary => ["--add-binary", binary])
        ++ c.extra_paths.flatMap (fun path => ["--paths", path]) := by
  constructor
  · rw [build_command_eq]
    simp only [List.append_assoc]
    exact List.take_left' rfl
  · exact build_command_eq c w sp

/-- C3: for every GUI form state, the command built by
`PyCrafter.build_exe` starts with `pyinstaller`, ends with the script
path, and equals the program name followed by each checkbox flag iff its
box is ticked, each of `--distpath`, `--icon`, `--name` with the field's
value iff that field is non-empty, one flag-value pair per non-blank
comma-separated entry of the five list fields (with `;.` appended to
data and binary entries), and the script path. -/
theorem c3_build_exe_command_structure (g : GuiForm) :
    (PyCrafter.build_exe_command g).head? = some "pyinstaller" ∧
    (PyCrafter.build_exe_command g).getLast? = some g.script_var ∧
    PyCrafter.build_exe_command g =
      ["pyinstaller"]
        ++ (if g.one_file_var then ["--onefile"] else [])
        ++ (if g.no_console_var then ["--noconsole"] else [])
        ++ (if g.admin_var then ["--uac-admin"] else [])
        ++ (if g.clean_build_var then ["--clean"] else [])
        ++ (if g.force_replace_var then ["--noconfirm"] else [])
        ++ (if g.optimize_var then ["--optimize=2"] else [])
        ++ (if g.output_var = "" then [] else ["--distpath", g.output_var])
        ++ (if g.icon_var = "" then [] else ["--icon", g.icon_var])
        ++ (if g.name_var = "" then [] else ["--name", g.name_var])
        ++ (commaEntries g.hidden_imports_var).flatMap (fun m => ["--hidden-import", m])
        ++ (commaEntries g.excluded_modules_var).flatMap (fun m => ["--exclude-module", m])
        ++ (commaEntries g.data_files_var).flatMap (fun f => ["--add-data", f ++ ";."])
        ++ (commaEntries g.binary_files_var).flatMap (fun f => ["--add-binary", f ++ ";."])
        ++ (commaEntries g.extra_paths_var).flatMap (fun p => ["--paths", p])
        ++ [g.script_var] := by
  refine ⟨?_, ?_, build_exe_command_eq g⟩
  · rw [build_exe_command_eq]
    simp [List.append_assoc]
  · rw [build_exe_command_eq]
    exact List.getLast?_concat _

/-- C2 (code bug): after the PyInstaller run, `build` checks whether
`<output>/<name>.exe` exists.  When it does, its path is returned as a
string.  When it does not, the `CrafterError` raised at line 201 is
caught by the `except` handler, which itself crashes on the
never-assigned `self.debug` attribute, so `build` raises
`AttributeError` rather than the documented `CrafterError`. -/
theorem c2_exe_check_and_result :
    Crafter.build crafterA buildEnvOk = .ok "/proj/out/main.exe" ∧
    Crafter.build_body crafterA buildEnvNoExe
        = .error (.crafterError "Build completed but executable file was not found.") ∧
    Crafter.build crafterA buildEnvNoExe = .error .attributeError := by
  refine ⟨?_, ?_, ?_⟩ <;> rfl

/-- C6 (code bug): an exception raised inside `build` (here a validation
failure: the script file is gone) is caught by the `except` handler, but
the handler's own access to the never-assigned `self.debug` attribute
raises `AttributeError`, so the exception is not re-raised as a
`CrafterError` with a `Build failed: ` message. -/
theorem c6_handler_attribute_error :
    Crafter.validate_inputs crafterA buildEnvNoScript
        = .error (.crafterError "Script file not found: /proj/main.py") ∧
    Crafter.build crafterA buildEnvNoScript = .error .attributeError := by
  refine ⟨?_, ?_⟩ <;> rfl

/-- C7: when no output directory is supplied, the script's parent
directory is used: `Crafter.__init__` sets `output` to the (resolved)
script's parent, and on success the GUI's `run_build` reports the
script's parent as the output path. -/
theorem c7_default_output_is_script_parent :
    (∀ (env : InitEnv) (s : String) (icon name : Option String)
        (nc of ra cb fr op : Bool) (hi ex da bi ep : Option (List String)) (c : Crafter),
        Crafter.init env (.vstr s) none icon name nc of ra cb fr op hi ex da bi ep = .ok c →
        c.output = pyParent (env.resolve s)) ∧
    (∀ g : GuiForm, g.output_var = "" →
        PyCrafter.run_build_output_path g = pyParent g.script_var) := by
  constructor
  · intro env s icon name nc of ra cb fr op hi ex da bi ep c h
    rw [init_ok_iff] at h
    obtain ⟨-, s', hs', -, -, -, hc⟩ := h
    cases hs'
    subst hc
    rfl
  · intro g h
    unfold PyCrafter.run_build_output_path
    simp [h]

/-- Witness for C7 at a concrete environment, script and form. -/
theorem c7_witness :
    (Crafter.initRecord envA "main.py" none none none
        false true false false false false none none none none none).output
      = pyParent (envA.resolve "main.py") ∧
    PyCrafter.run_build_output_path guiNoOut = pyParent guiNoOut.script_var := by
  constructor
  · exact c7_default_output_is_script_parent.1 envA "main.py" none none
      false true false false false false none none none none none _ (by rfl)
  · exact c7_default_output_is_script_parent.2 guiNoOut (by rfl)

/-- C8: after a successful `Crafter.__init__`, each of the five list
attributes contains only non-empty strings fixed by `strip`, and any of
them built from `None` or from only-blank entries is the empty list. -/
theorem c8_list_attribute_invariants
    (env : InitEnv) (script : PyVal) (output icon name : Option String)
    (nc of ra cb fr op : Bool) (hi ex da bi ep : Option (List String)) (c : Crafter)
    (h : Crafter.init env script output icon name nc of ra cb fr op hi ex da bi ep = .ok c) :
    (∀ e ∈ c.hidden_imports, e ≠ "" ∧ pyStrip e = e) ∧
    (∀ e ∈ c.excluded_modules, e ≠ "" ∧ pyStrip e = e) ∧
    (∀ e ∈ c.data_files, e ≠ "" ∧ pyStrip e = e) ∧
    (∀ e ∈ c.binary_files, e ≠ "" ∧ pyStrip e = e) ∧
    (∀ e ∈ c.extra_paths, e ≠ "" ∧ pyStrip e = e) ∧
    ((∀ x ∈ hi.getD [], pyStrip x = "") → c.hidden_imports = []) ∧
    ((∀ x ∈ ex.getD [], pyStrip x = "") → c.excluded_modules = []) ∧
    ((∀ x ∈ da.getD [], pyStrip x = "") → c.data_files = []) ∧
    ((∀ x ∈ bi.getD [], pyStrip x = "") → c.binary_files = []) ∧
    ((∀ x ∈ ep.getD [], pyStrip x = "") → c.extra_paths = []) := by
  rw [init_ok_iff] at h
  obtain ⟨-, s, -, -, -, -, hc⟩ := h
  subst hc
  refine ⟨?_, ?_, ?_, ?_, ?_, ?_, ?_, ?_, ?_, ?_⟩
  · exact pyCleanList_clean hi
  · exact pyCleanList_clean ex
  · exact pyCleanList_clean da
  · exact pyCleanList_clean bi
  · exact pyCleanList_clean ep
  · exact pyCleanList_eq_nil hi
  · exact pyCleanList_eq_nil ex
  · exact pyCleanList_eq_nil da
  · exact pyCleanList_eq_nil bi
  · exact pyCleanList_eq_nil ep

/-- Witness for C8: a concrete construction whose hidden-import argument
mixes padded, empty and blank entries and whose excluded-module argument
is all blank. -/
theorem c8_witness :
    (∀ e ∈ (Crafter.initRecord envA "main.py" none none none false true false false false
        false (some ["  numpy ", "", "  "]) (some [" ", ""]) none none none).hidden_imports,
      e ≠ "" ∧ pyStrip e = e) ∧
    ((∀ x ∈ (some [" ", ""] : Option (List String)).getD [], pyStrip x = "") →
      (Crafter.initRecord envA "main.py" none none none false true false false false
        false (some ["  numpy ", "", "  "]) (some [" ", ""]) none none none).excluded_modules
        = []) := by
  have h := c8_list_attribute_invariants envA (.vstr "main.py") none none none
    false true false false false false (some ["  numpy ", "", "  "]) (some [" ", ""])
    none none none _ (by rfl)
  exact ⟨h.1, h.2.2.2.2.2.2.1⟩

/-- C9: with PyInstaller importable, `Crafter.__init__` succeeds exactly
when the script argument is a non-empty string naming an existing file
with (case-insensitively) extension `.py`; every other script argument
raises a `CrafterError`; and on success the stored script is the
resolved path, with `name` defaulting to the script's stem when no name
is given. -/
theorem c9_script_validation
    (env : InitEnv) (script : PyVal) (output icon name : Option String)
    (nc of ra cb fr op : Bool) (hi ex da bi ep : Option (List String))
    (ha : env.pyinstaller_available = true) :
    ((∃ c, Crafter.init env script output icon name nc of ra cb fr op hi ex da bi ep = .ok c)
        ↔ ∃ s, script = .vstr s ∧ s ≠ "" ∧ env.is_file s = true ∧
            pyLower (pySuffix s) = ".py") ∧
    (∀ c s, script = .vstr s →
        Crafter.init env script output icon name nc of ra cb fr op hi ex da bi ep = .ok c →
        c.script = env.resolve s ∧ (name = none → c.name = pyStem (env.resolve s))) ∧
    ((¬ ∃ s, script = .vstr s ∧ s ≠ "" ∧ env.is_file s = true ∧
        pyLower (pySuffix s) = ".py") →
      ∃ msg, Crafter.init env script output icon name nc of ra cb fr op hi ex da bi ep
        = .error (.crafterError msg)) := by
  refine ⟨?_, ?_, ?_⟩
  · constructor
    · rintro ⟨c, hc⟩
      rw [init_ok_iff] at hc
      obtain ⟨-, s, h1, h2, h3, h4, -⟩ := hc
      exact ⟨s, h1, h2, h3, h4⟩
    · rintro ⟨s, h1, h2, h3, h4⟩
      exact ⟨_, (init_ok_iff env script output icon name nc of ra cb fr op hi ex da bi ep
        _).mpr ⟨ha, s, h1, h2, h3, h4, rfl⟩⟩
  · intro c s hscript hc
    rw [init_ok_iff] at hc
    obtain ⟨-, s', hs', -, -, -, hcc⟩ := hc
    rw [hscript] at hs'
    cases hs'
    subst hcc
    constructor
    · rfl
    · intro hname
      subst hname
      rfl
  · intro hnot
    rcases init_ok_or_crafterError env script output icon name nc of ra cb fr op hi ex da bi ep
      with ⟨c, hc⟩ | ⟨msg, hmsg⟩
    · exfalso
      rw [init_ok_iff] at hc
      obtain ⟨-, s, h1, h2, h3, h4, -⟩ := hc
      exact hnot ⟨s, h1, h2, h3, h4⟩
    · exact ⟨msg, hmsg⟩

/-- Witness for C9 at a concrete environment: `main.py` is accepted and
its resolved path and stem are stored. -/
theorem c9_witness :
    (∃ c, Crafter.init envA (.vstr "main.py") none none none
        false true false false false false none none none none none = .ok c) ∧
    (∀ c, Crafter.init envA (.vstr "main.py") none none none
        false true false false false false none none none none none = .ok c →
      c.script = envA.resolve "main.py" ∧ c.name = pyStem (envA.resolve "main.py")) := by
  have h := c9_script_validation envA (.vstr "main.py") none none none
    false true false false false false none none none none none (by rfl)
  constructor
  · exact h.1.mpr ⟨"main.py", rfl, by decide, rfl, by decide⟩
  · intro c hc
    have h2 := h.2.1 c "main.py" rfl hc
    exact ⟨h2.1, h2.2 rfl⟩

/-- C4 (counterexample): for the same configuration (script `app.py`,
output `out`, name `app`, no icon, optimize on, all else off/empty), the
backend and GUI translations do not produce the same options even up to
order: the backend emits `--workpath`/`--specpath` pairs and the two
tokens `--optimize 2`, the GUI emits the single token `--optimize=2`. -/
theorem c4_counterexample :
    crafterOpt.script = guiOpt.script_var ∧
    crafterOpt.output = guiOpt.output_var ∧
    crafterOpt.name = guiOpt.name_var ∧
    crafterOpt.icon = none ∧ guiOpt.icon_var = "" ∧
    crafterOpt.no_console = guiOpt.no_console_var ∧
    crafterOpt.one_file = guiOpt.one_file_var ∧
    crafterOpt.require_admin = guiOpt.admin_var ∧
    crafterOpt.optimize = guiOpt.optimize_var ∧
    ¬ (Crafter.build_command crafterOpt "/tmp/work" "/tmp/spec").Perm
        (PyCrafter.build_exe_command guiOpt) := by
  refine ⟨rfl, rfl, rfl, rfl, rfl, rfl, rfl, rfl, rfl, ?_⟩
  decide

/-- C4 (amended): restricted to configurations on which the two
translations were written to coincide - clean-build, force-replace and
optimize off, no data or binary entries, and output, icon and name all
supplied - the backend and the GUI produce the same multiset of
arguments, except that the GUI command carries the `pyinstaller` program
name while the backend command carries the `--workpath` and `--specpath`
pairs. -/
theorem c4_commands_agree_up_to_program_and_workpath
    (c : Crafter) (g : GuiForm) (w sp : String)
    (hs : c.script = g.script_var)
    (ho : c.output = g.output_var) (hone : ¬ g.output_var = "")
    (hic : c.icon = some g.icon_var) (hione : ¬ g.icon_var = "")
    (hn : c.name = g.name_var) (hnone : ¬ g.name_var = "")
    (hnc : c.no_console = g.no_console_var)
    (hof : c.one_file = g.one_file_var)
    (hra : c.require_admin = g.admin_var)
    (hop : c.optimize = false) (hgop : g.optimize_var = false)
    (hgcb : g.clean_build_var = false) (hgfr : g.force_replace_var = false)
    (hhi : c.hidden_imports = commaEntries g.hidden_imports_var)
    (hex : c.excluded_modules = commaEntries g.excluded_modules_var)
    (hep : c.extra_paths = commaEntries g.extra_paths_var)
    (hda : c.data_files = []) (hgda : commaEntries g.data_files_var = [])
    (hbi : c.binary_files = []) (hgbi : commaEntries g.binary_files_var = []) :
    (Crafter.build_command c w sp ++ ["pyinstaller"]).Perm
      (PyCrafter.build_exe_command g ++ ["--workpath", w, "--specpath", sp]) := by
  rw [← Multiset.coe_eq_coe, build_command_eq, build_exe_command_eq,
    hs, ho, hic, hn, hnc, hof, hra, hop, hgop, hgcb, hgfr, hhi, hex, hep, hda, hgda,
    hbi, hgbi]
  simp only [hone, hione, hnone, if_false, if_true, ite_false, ite_true,
    List.flatMap_nil, List.append_nil, List.append_assoc]
  simp only [← Multiset.coe_add, ← Multiset.cons_coe, ← Multiset.singleton_add,
    Multiset.coe_nil, add_zero, zero_add]
  abel

/-- Witness for the amended C4 at a concrete matching pair of
configurations. -/
theorem c4_witness :
    (Crafter.build_command crafterW "/tmp/work" "/tmp/spec" ++ ["pyinstaller"]).Perm
      (PyCrafter.build_exe_command guiW ++ ["--workpath", "/tmp/work", "--specpath", "/tmp/spec"]) := by
  exact c4_commands_agree_up_to_program_and_workpath crafterW guiW "/tmp/work" "/tmp/spec"
    rfl rfl (by decide) rfl (by decide) rfl (by decide) rfl rfl rfl rfl rfl rfl rfl
    (by decide) (by decide) (by decide) rfl (by decide) rfl (by decide)

/-- C5 (counterexample): two GUI form states that agree on every option
in the claimed set (script, icon, output, console visibility,
single-file, admin, and the five lists) but differ in the optimize
checkbox produce different command lines, so an option outside the
claimed set influences the command. -/
theorem c5_counterexample :
    guiW.script_var = guiOptOn.script_var ∧
    guiW.output_var = guiOptOn.output_var ∧
    guiW.icon_var = guiOptOn.icon_var ∧
    guiW.no_console_var = guiOptOn.no_console_var ∧
    guiW.one_file_var = guiOptOn.one_file_var ∧
    guiW.admin_var = guiOptOn.admin_var ∧
    guiW.hidden_imports_var = guiOptOn.hidden_imports_var ∧
    guiW.excluded_modules_var = guiOptOn.excluded_modules_var ∧
    guiW.data_files_var = guiOptOn.data_files_var ∧
    guiW.binary_files_var = guiOptOn.binary_files_var ∧
    guiW.extra_paths_var = guiOptOn.extra_paths_var ∧
    PyCrafter.build_exe_command guiW ≠ PyCrafter.build_exe_command guiOptOn := by
  refine ⟨rfl, rfl, rfl, rfl, rfl, rfl, rfl, rfl, rfl, rfl, rfl, ?_⟩
  decide

/-- C5 (amended): the options influencing the generated command line are
the claimed set together with the executable name and the optimize flag
(for both translations) and the clean-build and force-replace flags (for
the GUI translation only): the backend command is a function of script,
output, icon, name, the four flags and the five lists alone, while in
the GUI command each of optimize, clean-build and force-replace inserts
exactly one extra argument. -/
theorem c5_command_line_inputs :
    (∀ (c1 c2 : Crafter) (w sp : String),
        c1.script = c2.script → c1.output = c2.output → c1.icon = c2.icon →
        c1.name = c2.name → c1.no_console = c2.no_console →
        c1.one_file = c2.one_file → c1.require_admin = c2.require_admin →
        c1.optimize = c2.optimize → c1.hidden_imports = c2.hidden_imports →
        c1.excluded_modules = c2.excluded_modules → c1.data_files = c2.data_files →
        c1.binary_files = c2.binary_files → c1.extra_paths = c2.extra_paths →
        Crafter.build_command c1 w sp = Crafter.build_command c2 w sp) ∧
    (∀ g : GuiForm,
        (PyCrafter.build_exe_command { g with optimize_var := true }).length
          = (PyCrafter.build_exe_command { g with optimize_var := false }).length + 1) ∧
    (∀ g : GuiForm,
        (PyCrafter.build_exe_command { g with clean_build_var := true }).length
          = (PyCrafter.build_exe_command { g with clean_build_var := false }).length + 1) ∧
    (∀ g : GuiForm,
        (PyCrafter.build_exe_command { g with force_replace_var := true }).length
          = (PyCrafter.build_exe_command { g with force_replace_var := false }).length + 1) := by
  refine ⟨?_, ?_, ?_, ?_⟩
  · intro c1 c2 w sp h1 h2 h3 h4 h5 h6 h7 h8 h9 h10 h11 h12 h13
    rw [build_command_eq, build_command_eq, h1, h2, h3, h4, h5, h6, h7, h8, h9, h10,
      h11, h12, h13]
  · intro g
    rw [build_exe_command_eq, build_exe_command_eq]
    simp
    omega
  · intro g
    rw [build_exe_command_eq, build_exe_command_eq]
    simp
    omega
  · intro g
    rw [build_exe_command_eq, build_exe_command_eq]
    simp
    omega

/-- Witness for the amended C5: two backend states differing only in
clean-build and force-replace generate the same command. -/
theorem c5_witness :
    Crafter.build_command crafterA "/tmp/work" "/tmp/spec"
      = Crafter.build_command crafterCleanOn "/tmp/work" "/tmp/spec" := by
  exact c5_command_line_inputs.1 crafterA crafterCleanOn "/tmp/work" "/tmp/spec"
    rfl rfl rfl rfl rfl rfl rfl rfl rfl rfl rfl rfl rfl
